import Mathlib

/-!
Verification of the quality-gated face-verification pipeline of the
`Attendance` repository (`ai-service/face_recognition_service.py` and
`ai-service/main.py`).

The embedding is shallow: each Python function becomes a Lean definition
over explicit inputs.  Pixel statistics (Laplacian variance, mean
intensity) and the external DeepFace engine calls are modelled as inputs
to the functions that consume them, since the spec treats the engine as a
black-box collaborator.  Exact rationals stand for the Python floats in
the quality/threshold logic (pixel means and variances of integer pixels
are rational); real numbers stand for the floats in the cosine-distance
computation, which involves a square root.  Python exceptions become
`Except` error values.
-/

namespace Attendance

/-! ## Configuration constants (face_recognition_service.py, lines 65-71) -/

/-- `VERIFICATION_THRESHOLD = 0.40` — cosine distance threshold. -/
def VERIFICATION_THRESHOLD : ℝ := 0.40

/-- `MIN_FACE_SIZE = 80` — minimum face dimension in pixels. -/
def MIN_FACE_SIZE : ℕ := 80

/-- `MIN_IMAGE_SIZE = 150` — minimum image dimension. -/
def MIN_IMAGE_SIZE : ℕ := 150

/-- `MAX_IMAGE_SIZE = 4096` — maximum image dimension. -/
def MAX_IMAGE_SIZE : ℕ := 4096

/-- `QUALITY_THRESHOLD = 30.0` — minimum quality score. -/
def QUALITY_THRESHOLD : ℚ := 30

/-! ## Data model -/

/-- A decoded image; only its dimensions are inspected by the modelled
code (`image.shape[:2]`).  Pixel contents enter the model through the
crop-statistics oracle passed to the quality scorer. -/
structure Image where
  height : ℕ
  width : ℕ
deriving DecidableEq

/-- `facial_area` dictionary `{x, y, w, h}` returned by the engine. -/
structure FaceRegion where
  x : ℕ
  y : ℕ
  w : ℕ
  h : ℕ
deriving DecidableEq, Inhabited

/-- One candidate returned by `DeepFace.extract_faces`: a detection
confidence and a facial area. -/
structure FaceObj where
  confidence : ℚ
  facial_area : FaceRegion
deriving DecidableEq, Inhabited

/-- Structured payload of a `FaceNotDetectedException`. -/
inductive FNDetail where
  /-- "No face detected in the image." (line 207) -/
  | noneDetected
  /-- "Face detection failed: {e}" — an unexpected engine error wrapped
  by the catch-all at lines 251-253. -/
  | wrappedEngineError (e : String)
  /-- "Failed to generate face embedding" (line 277). -/
  | emptyEmbedding
deriving DecidableEq

/-- Structured payload of a `LowQualityImageException`. -/
inductive LQDetail where
  /-- "Image too small. Minimum size: {m}x{m}px" (line 124). -/
  | imageTooSmall (minSize : ℕ)
  /-- "Image too large. Maximum size: {m}x{m}px" (line 129). -/
  | imageTooLarge (maxSize : ℕ)
  /-- "Face too small ({w}x{h}px). Minimum: {m}x{m}px" (line 225). -/
  | faceTooSmall (w h minSize : ℕ)
  /-- "Image quality too low (score: {s}/100)." (line 234). -/
  | qualityScore (score : ℚ)
deriving DecidableEq

/-- The four classified exception classes of
`face_recognition_service.py` (lines 38-55).  Message contents are
carried as structured payloads. -/
inductive Exc where
  | faceNotDetected (d : FNDetail)
  | multipleFaces (count : ℕ)
  | lowQuality (d : LQDetail)
  | invalidImage (msg : String)
deriving DecidableEq

/-- An error escaping a service call: either one of the four classified
exception classes, or an unclassified engine/runtime exception
propagating raw. -/
inductive PyErr where
  | exc (e : Exc)
  | engine (e : String)
deriving DecidableEq

/-! ## ImageValidator -/

/-- `_load_image_from_bytes` (lines 81-108).  Decoding itself is an
external library call, modelled by its outcome; a decoding failure is
re-raised as `InvalidImageException`. -/
def _load_image_from_bytes (decoded : Except String Image) : Except Exc Image :=
  match decoded with
  | .ok img => .ok img
  | .error e => .error (.invalidImage e)

/-- `_validate_image_size` (lines 110-130): reject images whose height
or width falls outside `[MIN_IMAGE_SIZE, MAX_IMAGE_SIZE]`, too-small
checked first. -/
def _validate_image_size (height width : ℕ) : Except Exc Unit :=
  if height < MIN_IMAGE_SIZE ∨ width < MIN_IMAGE_SIZE then
    .error (.lowQuality (.imageTooSmall MIN_IMAGE_SIZE))
  else if height > MAX_IMAGE_SIZE ∨ width > MAX_IMAGE_SIZE then
    .error (.lowQuality (.imageTooLarge MAX_IMAGE_SIZE))
  else
    .ok ()

/-! ## QualityScorer -/

/-- Python `round(q, 2)`: round to two decimal places. -/
def round2 (q : ℚ) : ℚ := (round (q * 100) : ℤ) / 100

/-- `_calculate_quality_score` (lines 132-176).  `cropStats` is the
outcome of the OpenCV analysis of the cropped face: `some (lv, mean)`
carries the Laplacian variance and the mean gray intensity of the crop;
`none` models the exception path (e.g. a degenerate crop makes
`cv2.cvtColor` throw), which returns the neutral default `50.0`. -/
def _calculate_quality_score (H W : ℕ) (face_region : FaceRegion)
    (cropStats : Option (ℚ × ℚ)) : ℚ :=
  match cropStats with
  | none => 50
  | some (laplacian_var, brightness) =>
      let face_area : ℚ := (face_region.w : ℚ) * (face_region.h : ℚ)
      let image_area : ℚ := (H : ℚ) * (W : ℚ)
      let size_frac : ℚ := face_area / image_area
      let sharpness_score : ℚ := min (laplacian_var / 500 * 100) 100
      let brightness_score : ℚ := 100 - |brightness - 127| / 127 * 100
      let size_score : ℚ := min (size_frac * 500) 100
      round2 (sharpness_score * 0.5 + brightness_score * 0.3 + size_score * 0.2)

/-! ## FaceLocator -/

/-- Body of `_detect_face` (lines 196-243): the logic inside the `try`
block, applied to the candidate list returned by
`DeepFace.extract_faces`.  Filter to confidence `> 0.9`, then zero
candidates → `FaceNotDetected`; more than one → `MultipleFaces` with the
count; sole face smaller than `MIN_FACE_SIZE` → `LowQuality`; quality
score below `QUALITY_THRESHOLD` → `LowQuality`; else success. -/
def _detect_face_body (H W : ℕ) (analyze : FaceRegion → Option (ℚ × ℚ))
    (face_objs : List FaceObj) : Except Exc (FaceRegion × ℚ) :=
  let valid_faces := face_objs.filter fun f => (9 : ℚ) / 10 < f.confidence
  if valid_faces.length = 0 then
    .error (.faceNotDetected .noneDetected)
  else if 1 < valid_faces.length then
    .error (.multipleFaces valid_faces.length)
  else
    let face_region := valid_faces.headI.facial_area
    let face_width := face_region.w
    let face_height := face_region.h
    if face_width < MIN_FACE_SIZE ∨ face_height < MIN_FACE_SIZE then
      .error (.lowQuality (.faceTooSmall face_width face_height MIN_FACE_SIZE))
    else
      let quality_score := _calculate_quality_score H W face_region (analyze face_region)
      if quality_score < QUALITY_THRESHOLD then
        .error (.lowQuality (.qualityScore quality_score))
      else
        .ok (face_region, quality_score)

/-- `_detect_face` (lines 178-253).  The engine call outcome is the
input: an engine exception is caught by the catch-all (lines 251-253)
and re-raised as `FaceNotDetected`; the three classified exceptions
raised by the body pass through unchanged (lines 245-250). -/
def _detect_face (H W : ℕ) (analyze : FaceRegion → Option (ℚ × ℚ))
    (engine : Except String (List FaceObj)) : Except Exc (FaceRegion × ℚ) :=
  match engine with
  | .ok face_objs => _detect_face_body H W analyze face_objs
  | .error e => .error (.faceNotDetected (.wrappedEngineError e))

/-! ## EmbeddingExtractor -/

/-- `_generate_embedding` (lines 255-288).  The `DeepFace.represent`
outcome is the input.  An engine exception is logged and re-raised
unmodified (`except Exception as e: raise`, lines 286-288); an empty
result list raises `FaceNotDetected` (line 277), which the re-raise also
leaves unchanged; otherwise the first object's embedding is returned. -/
def _generate_embedding (engineEmbed : Except String (List (List ℝ))) :
    Except PyErr (List ℝ) :=
  match engineEmbed with
  | .error e => .error (.engine e)
  | .ok [] => .error (.exc (.faceNotDetected .emptyEmbedding))
  | .ok (embedding :: _) => .ok embedding

/-! ## SimilarityEngine -/

/-- `np.dot` on two equal-length vectors represented as lists. -/
def dot (a b : List ℝ) : ℝ := (List.zipWith (fun x y => x * y) a b).sum

/-- `np.linalg.norm`: the Euclidean norm. -/
noncomputable def linalg_norm (a : List ℝ) : ℝ := Real.sqrt (dot a a)

/-- `_calculate_similarity` (lines 290-314): cosine distance
`1 - dot(a,b) / (‖a‖ * ‖b‖)`.  Note the code performs the division
unconditionally — there is no guard on zero norms. -/
noncomputable def _calculate_similarity (embedding1 embedding2 : List ℝ) : ℝ :=
  let dot_product := dot embedding1 embedding2
  let norm1 := linalg_norm embedding1
  let norm2 := linalg_norm embedding2
  let cosine_similarity := dot_product / (norm1 * norm2)
  1 - cosine_similarity

/-! ## Verification decision -/

/-- `clamp(lo, hi, x)` as used by the spec's decision contract. -/
def clamp (lo hi x : ℝ) : ℝ := max lo (min hi x)

/-- The match/confidence decision of `verify_face` (lines 374-379):
`is_match = distance <= threshold`;
`confidence = max(0, min(100, (1 - distance) * 100))`.  The threshold
is the configured class constant, passed in by `verify_face`. -/
noncomputable def verify_decision (distance threshold : ℝ) : Bool × ℝ :=
  let is_match := @decide (distance ≤ threshold) (Classical.propDecidable _)
  let confidence := max 0 (min 100 ((1 - distance) * 100))
  (is_match, confidence)

/-- Python `round(x, 2)` on the reals. -/
noncomputable def round2R (x : ℝ) : ℝ := (round (x * 100) : ℤ) / 100

/-- Python `round(x, 4)` on the reals. -/
noncomputable def round4R (x : ℝ) : ℝ := (round (x * 10000) : ℤ) / 10000

/-! ## VerificationPipeline: service-level operations -/

/-- Result dictionary of `FaceRecognitionService.enroll_face`
(lines 338-345). -/
structure EnrollOut where
  embedding : List ℝ
  quality_score : ℚ
  face_w : ℕ
  face_h : ℕ

/-- `enroll_face` (lines 316-345): load → validate size → detect →
embed.  The external decode/engine outcomes are inputs. -/
def enroll_face (decoded : Except String Image)
    (analyze : FaceRegion → Option (ℚ × ℚ))
    (engineDetect : Except String (List FaceObj))
    (engineEmbed : Except String (List (List ℝ))) : Except PyErr EnrollOut := do
  let image ← (_load_image_from_bytes decoded).mapError PyErr.exc
  let _ ← (_validate_image_size image.height image.width).mapError PyErr.exc
  let fr_q ← (_detect_face image.height image.width analyze engineDetect).mapError PyErr.exc
  let embedding ← _generate_embedding engineEmbed
  return ⟨embedding, fr_q.2, fr_q.1.w, fr_q.1.h⟩

/-- Result dictionary of `FaceRecognitionService.verify_face`
(lines 388-394). -/
structure VerifyOut where
  is_match : Bool
  confidence : ℝ
  similarity_score : ℝ
  threshold : ℝ
  quality_score : ℚ

/-- `verify_face` (lines 347-394): load → validate size → detect →
embed → similarity → decision. -/
noncomputable def verify_face (decoded : Except String Image)
    (analyze : FaceRegion → Option (ℚ × ℚ))
    (engineDetect : Except String (List FaceObj))
    (engineEmbed : Except String (List (List ℝ)))
    (stored_embedding : List ℝ) : Except PyErr VerifyOut := do
  let image ← (_load_image_from_bytes decoded).mapError PyErr.exc
  let _ ← (_validate_image_size image.height image.width).mapError PyErr.exc
  let fr_q ← (_detect_face image.height image.width analyze engineDetect).mapError PyErr.exc
  let current_embedding ← _generate_embedding engineEmbed
  let distance := _calculate_similarity current_embedding stored_embedding
  let p := verify_decision distance VERIFICATION_THRESHOLD
  return ⟨p.1, round2R p.2, round4R distance, VERIFICATION_THRESHOLD, fr_q.2⟩

/-! ## HTTP boundary (main.py) -/

/-- `EnrollmentResponse` model of `main.py` (lines 43-49), restricted to
the fields the error-propagation policy constrains; the `message` string
is rendered from the carried exception value and the timestamp is
transport plumbing, both out of scope. -/
structure EnrollmentResponse where
  success : Bool
  embedding : Option (List ℝ)
  face_detected : Bool
  quality_score : Option ℚ

/-- Outcome of an endpoint call: either a structured 200 response or an
`HTTPException` with a status code carrying the triggering error. -/
inductive EnrollHttpResult where
  | response (r : EnrollmentResponse)
  | httpError (statusCode : ℕ) (e : PyErr)

/-- The exception-handling policy of the `/enroll` endpoint
(`main.py`, lines 133-197), as a function of the service-call outcome:
`FaceNotDetected` is a soft failure returning a structured
`success=false` response; `MultipleFaces`, `LowQuality`, `InvalidImage`
become HTTP 400; any unclassified exception becomes HTTP 500. -/
def enroll_endpoint (service : Except PyErr EnrollOut) : EnrollHttpResult :=
  match service with
  | .ok r => .response ⟨true, some r.embedding, true, some r.quality_score⟩
  | .error (.exc (.faceNotDetected _)) => .response ⟨false, none, false, none⟩
  | .error (.exc (.multipleFaces n)) => .httpError 400 (.exc (.multipleFaces n))
  | .error (.exc (.lowQuality d)) => .httpError 400 (.exc (.lowQuality d))
  | .error (.exc (.invalidImage m)) => .httpError 400 (.exc (.invalidImage m))
  | .error (.engine e) => .httpError 500 (.engine e)

/-- `VerificationResponse` model of `main.py` (lines 54-61), restricted
as for enrollment. -/
structure VerificationResponse where
  success : Bool
  matched : Bool
  confidence : ℝ
  similarity_score : Option ℝ
  threshold_used : ℝ

/-- Outcome of a `/verify` endpoint call. -/
inductive VerifyHttpResult where
  | response (r : VerificationResponse)
  | httpError (statusCode : ℕ) (e : PyErr)

/-- The exception-handling policy of the `/verify` endpoint
(`main.py`, lines 251-328): `FaceNotDetected` returns a structured
`success=false, match=false, confidence=0.0` response with the
configured threshold (lines 272-285); the other classified exceptions
become HTTP 400; unclassified exceptions become HTTP 500. -/
def verify_endpoint (service : Except PyErr VerifyOut) : VerifyHttpResult :=
  match service with
  | .ok r => .response ⟨true, r.is_match, r.confidence, some r.similarity_score, r.threshold⟩
  | .error (.exc (.faceNotDetected _)) =>
      .response ⟨false, false, 0, none, VERIFICATION_THRESHOLD⟩
  | .error (.exc (.multipleFaces n)) => .httpError 400 (.exc (.multipleFaces n))
  | .error (.exc (.lowQuality d)) => .httpError 400 (.exc (.lowQuality d))
  | .error (.exc (.invalidImage m)) => .httpError 400 (.exc (.invalidImage m))
  | .error (.engine e) => .httpError 500 (.engine e)

deriving instance DecidableEq for Except

/-! ## Theorems -/

/-- C2: the size check accepts exactly the images with
`150 ≤ height ≤ 4096` and `150 ≤ width ≤ 4096`; a too-small dimension
yields the `LowQuality` "too small" error (checked first), a too-large
one the "too large" error; the boundary dimensions 149/150 and 4096/4097
flip acceptance. -/
theorem validate_image_size_spec :
    (∀ h w : ℕ, _validate_image_size h w = .ok () ↔
      (150 ≤ h ∧ h ≤ 4096 ∧ 150 ≤ w ∧ w ≤ 4096)) ∧
    (∀ h w : ℕ, h < 150 ∨ w < 150 →
      _validate_image_size h w = .error (.lowQuality (.imageTooSmall 150))) ∧
    (∀ h w : ℕ, 150 ≤ h → 150 ≤ w → h > 4096 ∨ w > 4096 →
      _validate_image_size h w = .error (.lowQuality (.imageTooLarge 4096))) ∧
    (_validate_image_size 149 200 ≠ .ok () ∧ _validate_image_size 150 150 = .ok () ∧
     _validate_image_size 200 149 ≠ .ok () ∧ _validate_image_size 4096 4096 = .ok () ∧
     _validate_image_size 4097 200 ≠ .ok () ∧ _validate_image_size 200 4097 ≠ .ok ()) := by
  refine ⟨?_, ?_, ?_, by decide⟩
  · intro h w
    unfold _validate_image_size MIN_IMAGE_SIZE MAX_IMAGE_SIZE
    split_ifs with h1 h2 <;> simp <;> omega
  · intro h w hsmall
    unfold _validate_image_size MIN_IMAGE_SIZE
    rw [if_pos hsmall]
  · intro h w hh hw hlarge
    unfold _validate_image_size MIN_IMAGE_SIZE MAX_IMAGE_SIZE
    rw [if_neg (by omega), if_pos hlarge]

/-- C2 witness: concrete instances of the three conditional parts. -/
theorem validate_image_size_spec_witness :
    _validate_image_size 100 100 = .error (.lowQuality (.imageTooSmall 150)) ∧
    _validate_image_size 5000 5000 = .error (.lowQuality (.imageTooLarge 4096)) ∧
    _validate_image_size 400 400 = .ok () :=
  ⟨validate_image_size_spec.2.1 100 100 (Or.inl (by decide)),
   validate_image_size_spec.2.2.1 5000 5000 (by decide) (by decide) (Or.inl (by decide)),
   (validate_image_size_spec.1 400 400).mpr (by decide)⟩

/-- C5: on a successful crop analysis the quality score equals the
weighted sum `0.5*min(lv/500*100,100) + 0.3*(100-|mean-127|/127*100) +
0.2*min(faceArea/imageArea*500,100)` rounded to two decimals, and on an
internal scoring failure the neutral default `50.0` is returned. -/
theorem quality_score_formula (H W : ℕ) (fr : FaceRegion) (lv mean : ℚ) :
    _calculate_quality_score H W fr (some (lv, mean)) =
      round2 (0.5 * min (lv / 500 * 100) 100
        + 0.3 * (100 - |mean - 127| / 127 * 100)
        + 0.2 * min ((fr.w : ℚ) * (fr.h : ℚ) / ((H : ℚ) * (W : ℚ)) * 500) 100) ∧
    _calculate_quality_score H W fr none = 50 := by
  refine ⟨?_, rfl⟩
  show round2 _ = round2 _
  ring_nf

/-- C6: the quality score is claimed to lie in `[0, 100]` for every
valid crop, and the code's own docstring promises "Quality score
(0-100)"; but an all-white 80×80 face crop (Laplacian variance 0, mean
intensity 255) in a 1707×1707 image scores `-1/50 = -0.02 < 0`: the
brightness term `100 - |255-127|/127*100` is negative because the pixel
range `[0,255]` is not symmetric around 127. -/
theorem quality_score_out_of_range :
    _calculate_quality_score 1707 1707 ⟨0, 0, 80, 80⟩ (some (0, 255)) = -1/50 ∧
    _calculate_quality_score 1707 1707 ⟨0, 0, 80, 80⟩ (some (0, 255)) < 0 := by
  constructor <;>
    norm_num [_calculate_quality_score, round2, round_eq, min_def, abs]

/-- C1: the verification decision satisfies `isMatch = (d ≤ t)` and
`confidence = clamp(0, 100, (1 - d) * 100)`; the confidence lies in
`[0, 100]` for every real distance, and the threshold used is the
constant `VERIFICATION_THRESHOLD = 0.40`. -/
theorem verify_decision_spec (d t : ℝ) :
    ((verify_decision d t).1 = true ↔ d ≤ t) ∧
    (verify_decision d t).2 = clamp 0 100 ((1 - d) * 100) ∧
    (0 ≤ (verify_decision d t).2 ∧ (verify_decision d t).2 ≤ 100) ∧
    VERIFICATION_THRESHOLD = 0.40 := by
  refine ⟨?_, rfl, ⟨le_max_left 0 _, ?_⟩, rfl⟩
  · simp [verify_decision]
  · exact max_le (by norm_num) (min_le_left 100 _)

/-- C1 witness: at distance 0 against the configured threshold the
decision is a match with confidence within bounds. -/
theorem verify_decision_spec_witness :
    (verify_decision 0 VERIFICATION_THRESHOLD).1 = true ∧
    0 ≤ (verify_decision 0 VERIFICATION_THRESHOLD).2 :=
  ⟨(verify_decision_spec 0 VERIFICATION_THRESHOLD).1.mpr
    (by norm_num [VERIFICATION_THRESHOLD]),
   ((verify_decision_spec 0 VERIFICATION_THRESHOLD).2.2.1).1⟩

/-- C3: detection keeps only candidates with confidence strictly above
0.9 and then, in order: zero candidates fail with `FaceNotDetected`;
more than one fails with `MultipleFaces` carrying the count; a sole
candidate smaller than 80px in width or height fails with `LowQuality`
(actual dimensions in the payload); a quality score below 30.0 fails
with `LowQuality` carrying the score; otherwise the face box and the
quality score are returned. -/
theorem detect_face_spec (H W : ℕ) (analyze : FaceRegion → Option (ℚ × ℚ))
    (faces : List FaceObj) (f : FaceObj) :
    (faces.filter (fun g => (9 : ℚ) / 10 < g.confidence) = [] →
      _detect_face H W analyze (.ok faces) = .error (.faceNotDetected .noneDetected)) ∧
    (1 < (faces.filter fun g => (9 : ℚ) / 10 < g.confidence).length →
      _detect_face H W analyze (.ok faces) =
        .error (.multipleFaces (faces.filter fun g => (9 : ℚ) / 10 < g.confidence).length)) ∧
    (faces.filter (fun g => (9 : ℚ) / 10 < g.confidence) = [f] →
      (f.facial_area.w < 80 ∨ f.facial_area.h < 80 →
        _detect_face H W analyze (.ok faces) =
          .error (.lowQuality (.faceTooSmall f.facial_area.w f.facial_area.h 80))) ∧
      (¬(f.facial_area.w < 80 ∨ f.facial_area.h < 80) →
        _calculate_quality_score H W f.facial_area (analyze f.facial_area) < 30 →
        _detect_face H W analyze (.ok faces) =
          .error (.lowQuality
            (.qualityScore (_calculate_quality_score H W f.facial_area (analyze f.facial_area))))) ∧
      (¬(f.facial_area.w < 80 ∨ f.facial_area.h < 80) →
        ¬ _calculate_quality_score H W f.facial_area (analyze f.facial_area) < 30 →
        _detect_face H W analyze (.ok faces) =
          .ok (f.facial_area,
            _calculate_quality_score H W f.facial_area (analyze f.facial_area)))) := by
  have hunf : ∀ fo, _detect_face H W analyze (.ok fo) = _detect_face_body H W analyze fo :=
    fun _ => rfl
  refine ⟨?_, ?_, ?_⟩
  · intro hvf
    rw [hunf]
    simp only [_detect_face_body]
    rw [hvf]
    rfl
  · intro hlen
    rw [hunf]
    simp only [_detect_face_body]
    split_ifs <;> first | rfl | omega
  · intro hvf
    have hsing : _detect_face H W analyze (.ok faces) =
        (if f.facial_area.w < 80 ∨ f.facial_area.h < 80 then
          .error (.lowQuality (.faceTooSmall f.facial_area.w f.facial_area.h 80))
        else if _calculate_quality_score H W f.facial_area (analyze f.facial_area) < 30 then
          .error (.lowQuality
            (.qualityScore (_calculate_quality_score H W f.facial_area (analyze f.facial_area))))
        else
          .ok (f.facial_area, _calculate_quality_score H W f.facial_area (analyze f.facial_area))) := by
      rw [hunf]
      unfold _detect_face_body
      rw [hvf]
      rfl
    refine ⟨?_, ?_, ?_⟩
    · intro hsmall
      rw [hsing, if_pos hsmall]
    · intro hbig hq
      rw [hsing, if_neg hbig, if_pos hq]
    · intro hbig hq
      rw [hsing, if_neg hbig, if_neg hq]

/-- C3 witness: a single high-confidence 100×100 face in a 400×400
image, whose crop analysis fails (neutral score 50 ≥ 30), is accepted
with exactly that score. -/
theorem detect_face_spec_witness :
    _detect_face 400 400 (fun _ => none)
        (.ok [⟨1, ⟨0, 0, 100, 100⟩⟩]) = .ok (⟨0, 0, 100, 100⟩, 50) := by
  have h := (detect_face_spec 400 400 (fun _ => none)
      [⟨1, ⟨0, 0, 100, 100⟩⟩] ⟨1, ⟨0, 0, 100, 100⟩⟩).2.2
      (by simp only [List.filter, decide_eq_true_eq]; norm_num)
  exact h.2.2 (by norm_num) (by norm_num [_calculate_quality_score])

/-- C9: the two engine facades reclassify errors differently.  In
`_detect_face`, an unexpected engine error is wrapped and re-raised as
`FaceNotDetected`, while outcomes of the classified logic (the body)
pass through unchanged and the body itself never produces a wrapped
engine error.  In `_generate_embedding`, an underlying engine error is
propagated unmodified (never reclassified); `FaceNotDetected` is raised
only when the engine returns no result; a non-empty result yields the
first embedding. -/
theorem engine_error_reclassification :
    (∀ (H W : ℕ) (analyze : FaceRegion → Option (ℚ × ℚ)) (e : String),
      _detect_face H W analyze (.error e) =
        .error (.faceNotDetected (.wrappedEngineError e))) ∧
    (∀ (H W : ℕ) (analyze : FaceRegion → Option (ℚ × ℚ)) (faces : List FaceObj),
      _detect_face H W analyze (.ok faces) = _detect_face_body H W analyze faces) ∧
    (∀ (H W : ℕ) (analyze : FaceRegion → Option (ℚ × ℚ)) (faces : List FaceObj) (e : String),
      _detect_face_body H W analyze faces ≠
        .error (.faceNotDetected (.wrappedEngineError e))) ∧
    (∀ e : String, _generate_embedding (.error e) = .error (.engine e)) ∧
    (_generate_embedding (.ok []) = .error (.exc (.faceNotDetected .emptyEmbedding))) ∧
    (∀ (emb : List ℝ) (rest : List (List ℝ)),
      _generate_embedding (.ok (emb :: rest)) = .ok emb) := by
  refine ⟨fun _ _ _ _ => rfl, fun _ _ _ _ => rfl, ?_, fun _ => rfl, rfl, fun _ _ => rfl⟩
  intro H W analyze faces e
  simp only [_detect_face_body]
  split_ifs <;> simp

/-- C9 witness: concrete instances — a failing engine call is wrapped
into `FaceNotDetected` by detection but propagated raw by embedding
extraction, and the detection body never wraps. -/
theorem engine_error_reclassification_witness :
    _detect_face 400 400 (fun _ => none) (.error ("boom")) =
      .error (.faceNotDetected (.wrappedEngineError ("boom"))) ∧
    _generate_embedding (.error ("boom")) = .error (.engine ("boom")) ∧
    _detect_face_body 400 400 (fun _ => none) [] ≠
      .error (.faceNotDetected (.wrappedEngineError ("boom"))) :=
  ⟨engine_error_reclassification.1 400 400 (fun _ => none) "boom",
   engine_error_reclassification.2.2.2.1 "boom",
   engine_error_reclassification.2.2.1 400 400 (fun _ => none) [] "boom"⟩

theorem dot_nil_right (a : List ℝ) : dot a [] = 0 := by
  cases a <;> simp [dot]

theorem dot_comm (a b : List ℝ) : dot a b = dot b a := by
  induction a generalizing b with
  | nil => cases b <;> simp [dot]
  | cons x xs ih =>
      cases b with
      | nil => simp [dot]
      | cons y ys =>
          simp only [dot, List.zipWith_cons_cons, List.sum_cons] at ih ⊢
          rw [mul_comm, ih]

theorem dot_self_nonneg (v : List ℝ) : 0 ≤ dot v v := by
  induction v with
  | nil => simp [dot]
  | cons x xs ih =>
      simp only [dot, List.zipWith_cons_cons, List.sum_cons] at ih ⊢
      exact add_nonneg (mul_self_nonneg x) ih

theorem dot_self_pos (v : List ℝ) (hv : ∃ x ∈ v, x ≠ 0) : 0 < dot v v := by
  induction v with
  | nil => simp at hv
  | cons x xs ih =>
      simp only [dot, List.zipWith_cons_cons, List.sum_cons]
      rcases hv with ⟨y, hy, hy0⟩
      rcases List.mem_cons.mp hy with rfl | hmem
      · exact add_pos_of_pos_of_nonneg (mul_self_pos.mpr hy0) (dot_self_nonneg xs)
      · exact add_pos_of_nonneg_of_pos (mul_self_nonneg x) (ih ⟨y, hmem, hy0⟩)

theorem dot_zero_left (a b : List ℝ) (ha : ∀ x ∈ a, x = 0) : dot a b = 0 := by
  induction a generalizing b with
  | nil => cases b <;> simp [dot]
  | cons x xs ih =>
      cases b with
      | nil => simp [dot]
      | cons y ys =>
          simp only [dot, List.zipWith_cons_cons, List.sum_cons]
          have hx : x = 0 := ha x (List.mem_cons_self x xs)
          have : dot xs ys = 0 := ih ys fun z hz => ha z (List.mem_cons_of_mem x hz)
          simp [dot] at this
          simp [hx, this]

/-- C7: the cosine distance is reflexive and symmetric within tolerance
`1e-6`: `|distance(v, v)| ≤ 1e-6` for every non-zero vector `v`, and
`|distance(a, b) - distance(b, a)| ≤ 1e-6` for all vectors with
non-zero norms.  (In the exact-real model both quantities are exactly
zero; the tolerance absorbs the floating-point rounding of the
implementation.) -/
theorem similarity_refl_symm :
    (∀ v : List ℝ, (∃ x ∈ v, x ≠ 0) → |_calculate_similarity v v| ≤ 1e-6) ∧
    (∀ a b : List ℝ, linalg_norm a ≠ 0 → linalg_norm b ≠ 0 →
      |_calculate_similarity a b - _calculate_similarity b a| ≤ 1e-6) := by
  constructor
  · intro v hv
    have hpos : 0 < dot v v := dot_self_pos v hv
    have hs : linalg_norm v * linalg_norm v = dot v v :=
      Real.mul_self_sqrt (le_of_lt hpos)
    have : _calculate_similarity v v = 0 := by
      simp only [_calculate_similarity, hs]
      rw [div_self (ne_of_gt hpos)]
      ring
    rw [this]
    norm_num
  · intro a b _ _
    have : _calculate_similarity a b = _calculate_similarity b a := by
      simp only [_calculate_similarity]
      rw [dot_comm, mul_comm]
    rw [this]
    simp
    norm_num

/-- C7 witness: reflexivity at `v = [3, 4]` and symmetry at
`a = [1, 0]`, `b = [0, 1]`. -/
theorem similarity_refl_symm_witness :
    |_calculate_similarity [(3 : ℝ), 4] [3, 4]| ≤ 1e-6 ∧
    |_calculate_similarity [(1 : ℝ), 0] [0, 1] -
      _calculate_similarity [(0 : ℝ), 1] [1, 0]| ≤ 1e-6 := by
  constructor
  · exact similarity_refl_symm.1 [3, 4] ⟨3, by simp, by norm_num⟩
  · refine similarity_refl_symm.2 [1, 0] [0, 1] ?_ ?_ <;>
      · simp only [linalg_norm, dot, List.zipWith_cons_cons, List.zipWith_nil_right,
          List.sum_cons, List.sum_nil]
        norm_num

/-- C8: the similarity computation does not guard zero norms: with an
all-zero stored embedding the division `dot / (norm1 * norm2)` is
performed with a zero denominator and a plain number is returned — no
`InvalidEmbedding`-style error is signalled (no such exception class
exists in the code).  In IEEE arithmetic the division yields NaN; in
the exact model division by zero is the junk value 0, so the distance
evaluates to 1. -/
theorem similarity_zero_vector_no_guard :
    linalg_norm (List.replicate 512 (0 : ℝ)) = 0 ∧
    _calculate_similarity (List.replicate 512 (0 : ℝ)) (List.replicate 512 1) = 1 := by
  have hz : ∀ x ∈ List.replicate 512 (0 : ℝ), x = 0 := fun x hx =>
    List.eq_of_mem_replicate hx
  have hd : dot (List.replicate 512 (0 : ℝ)) (List.replicate 512 1) = 0 :=
    dot_zero_left _ _ hz
  have hdself : dot (List.replicate 512 (0 : ℝ)) (List.replicate 512 (0 : ℝ)) = 0 :=
    dot_zero_left _ _ hz
  constructor
  · unfold linalg_norm
    rw [hdself, Real.sqrt_zero]
  · show 1 - dot (List.replicate 512 (0 : ℝ)) (List.replicate 512 1) /
        (linalg_norm (List.replicate 512 (0 : ℝ)) * linalg_norm (List.replicate 512 1)) = 1
    rw [hd, zero_div]
    norm_num

/-- C4: at the enrollment boundary, `FaceNotDetected` is a soft failure
— the endpoint returns a structured response with `success = false` and
`face_detected = false` rather than an error status — while
`MultipleFaces`, `LowQuality` and `InvalidImage` are hard failures
surfaced as HTTP 400 client errors.  The final conjunct runs scenario C:
a zero-face 400×400 image through the whole enrollment pipeline yields
the soft response. -/
theorem enroll_soft_hard_failures :
    (∀ d, enroll_endpoint (.error (.exc (.faceNotDetected d))) =
      .response ⟨false, none, false, none⟩) ∧
    (∀ n, enroll_endpoint (.error (.exc (.multipleFaces n))) =
      .httpError 400 (.exc (.multipleFaces n))) ∧
    (∀ d, enroll_endpoint (.error (.exc (.lowQuality d))) =
      .httpError 400 (.exc (.lowQuality d))) ∧
    (∀ m, enroll_endpoint (.error (.exc (.invalidImage m))) =
      .httpError 400 (.exc (.invalidImage m))) ∧
    enroll_endpoint (enroll_face (.ok ⟨400, 400⟩) (fun _ => none) (.ok []) (.ok [])) =
      .response ⟨false, none, false, none⟩ :=
  ⟨fun _ => rfl, fun _ => rfl, fun _ => rfl, fun _ => rfl, rfl⟩

/-- C10: the verification endpoint also treats `FaceNotDetected` as a
soft failure: whenever face location or embedding extraction of the
live image raises it, the endpoint returns a structured response with
`success = false`, `match = false`, `confidence = 0.0` and the
configured threshold, raising no error status. -/
theorem verify_soft_face_not_detected (decoded : Except String Image)
    (analyze : FaceRegion → Option (ℚ × ℚ))
    (engineDetect : Except String (List FaceObj))
    (engineEmbed : Except String (List (List ℝ)))
    (stored : List ℝ) (img : Image) (fr_q : FaceRegion × ℚ) (d : FNDetail) :
    (verify_endpoint (.error (.exc (.faceNotDetected d))) =
      .response ⟨false, false, 0, none, VERIFICATION_THRESHOLD⟩) ∧
    (decoded = .ok img → _validate_image_size img.height img.width = .ok () →
      _detect_face img.height img.width analyze engineDetect =
        .error (.faceNotDetected d) →
      verify_endpoint (verify_face decoded analyze engineDetect engineEmbed stored) =
        .response ⟨false, false, 0, none, VERIFICATION_THRESHOLD⟩) ∧
    (decoded = .ok img → _validate_image_size img.height img.width = .ok () →
      _detect_face img.height img.width analyze engineDetect = .ok fr_q →
      _generate_embedding engineEmbed = .error (.exc (.faceNotDetected d)) →
      verify_endpoint (verify_face decoded analyze engineDetect engineEmbed stored) =
        .response ⟨false, false, 0, none, VERIFICATION_THRESHOLD⟩) := by
  refine ⟨rfl, ?_, ?_⟩
  · intro hdec hval hdet
    have : verify_face decoded analyze engineDetect engineEmbed stored =
        .error (.exc (.faceNotDetected d)) := by
      simp [verify_face, _load_image_from_bytes, hdec, hval, hdet, Except.mapError,
        Bind.bind, Except.bind]
    rw [this]
    rfl
  · intro hdec hval hdet hemb
    have : verify_face decoded analyze engineDetect engineEmbed stored =
        .error (.exc (.faceNotDetected d)) := by
      simp [verify_face, _load_image_from_bytes, hdec, hval, hdet, hemb, Except.mapError,
        Bind.bind, Except.bind]
    rw [this]
    rfl

/-- C10 witness: a 400×400 decoded image on which the engine finds no
face makes the verification endpoint return the soft `success=false,
match=false, confidence=0` response. -/
theorem verify_soft_face_not_detected_witness :
    verify_endpoint (verify_face (.ok ⟨400, 400⟩) (fun _ => none) (.ok []) (.ok [[1]]) [1]) =
      .response ⟨false, false, 0, none, VERIFICATION_THRESHOLD⟩ :=
  (verify_soft_face_not_detected (.ok ⟨400, 400⟩) (fun _ => none) (.ok []) (.ok [[1]]) [1]
    ⟨400, 400⟩ ⟨⟨0, 0, 0, 0⟩, 0⟩ .noneDetected).2.1 rfl rfl rfl

end Attendance
